import Mathlib

/-!
Shallow embedding of the conversation/scope/layout core of the `reader`
e-reader application, together with proofs of the behavioural claims made
about it.

The embedding covers:
* `src/contexts/ChatContext.tsx` — the conversation store
  (`startConversation`, `addMessage`, `setScope`, `clearConversation`);
* `src/components/ChatPanel.tsx` — the follow-up send path (`sendMessage`)
  and the scope-selector guard;
* `src/components/Simplifier.tsx` — `fetchDictionaryDefinition`,
  `simplifyText`, `sendFollowUp`;
* `src/app/api/simplify/route.ts` — the scope-context truncation performed
  when building a `followup` request body;
* `ReaderLayout` (panel width state) — initial width restoration and the
  drag-clamping in `handlePointerMove`.

Conventions of the embedding:
* JavaScript strings become Lean `String`s; `s.slice(0, n)` on a string is
  modelled as taking the first `n` characters of the character list
  (`String.mk (s.data.take n)`), ignoring the UTF-16 code-unit subtlety.
* A JavaScript optional string field is `Option String`; JS truthiness of
  such a field (`undefined`, `null` and `""` are falsy) is the decidable
  predicate `strTruthy`.
* Nondeterministic environment inputs (`crypto.randomUUID()`, `Date.now()`,
  fetch results) are passed in as explicit arguments.
* React `useState` state is threaded explicitly; a `useState` updater of the
  form `setX (prev => ...)` becomes a pure function `State → State`.
-/

namespace Reader

/-- JS truthiness of an optional string field: `undefined`/absent and the
empty string are falsy. -/
def strTruthy : Option String → Bool
  | none => false
  | some s => s ≠ ""

/-- Model of JavaScript `s.slice(0, n)` for `n ≥ 0`: the first `n`
characters of `s` (the source uses it only to truncate large context
strings). -/
def jsSlice (s : String) (n : Nat) : String :=
  String.mk (s.data.take n)

theorem jsSlice_length_le (s : String) (n : Nat) : (jsSlice s n).length ≤ n := by
  have h : (jsSlice s n).length = (s.data.take n).length := rfl
  rw [h, List.length_take]
  exact Nat.min_le_left _ _

/-- `src/types/chat.ts`: role of a chat message. -/
inductive Role where
  | user
  | assistant
  deriving DecidableEq, Repr

/-- `src/types/chat.ts`: context scope of a conversation. -/
inductive ContextScope where
  | highlight
  | chapter
  | book
  deriving DecidableEq, Repr

/-- `src/types/chat.ts` `ChatMessage`: one turn of a conversation.
`timestamp` is the `Date.now()` value at creation. -/
structure ChatMessage where
  id : String
  role : Role
  content : String
  timestamp : Nat
  deriving DecidableEq, Repr

/-- `src/types/chat.ts` `ConversationContext`: the single active
conversation held by the store. -/
structure ConversationContext where
  originalText : String
  chapterText : Option String
  bookText : Option String
  chapterTitle : Option String
  messages : List ChatMessage
  scope : ContextScope
  deriving DecidableEq, Repr

/-- `src/contexts/ChatContext.tsx` `StartConversationOptions`. -/
structure StartConversationOptions where
  originalText : String
  initialResponse : String
  chapterText : Option String := none
  bookText : Option String := none
  chapterTitle : Option String := none
  existingMessages : Option (List ChatMessage) := none
  deriving Repr

/-- `src/contexts/ChatContext.tsx` lines 31–63, `startConversation`.
`freshId` stands for `crypto.randomUUID()` and `now` for `Date.now()`.
The function builds the conversation that `setConversation` installs; the
previous store value is not consulted. -/
def startConversation (opts : StartConversationOptions) (freshId : String)
    (now : Nat) : ConversationContext :=
  match opts.existingMessages with
  | some existing =>
    if existing.length > 0 then
      { originalText := opts.originalText
        chapterText := opts.chapterText
        bookText := opts.bookText
        chapterTitle := opts.chapterTitle
        messages := existing
        scope := ContextScope.highlight }
    else
      { originalText := opts.originalText
        chapterText := opts.chapterText
        bookText := opts.bookText
        chapterTitle := opts.chapterTitle
        messages := [{ id := freshId, role := Role.assistant,
                       content := opts.initialResponse, timestamp := now }]
        scope := ContextScope.highlight }
  | none =>
    { originalText := opts.originalText
      chapterText := opts.chapterText
      bookText := opts.bookText
      chapterTitle := opts.chapterTitle
      messages := [{ id := freshId, role := Role.assistant,
                     content := opts.initialResponse, timestamp := now }]
      scope := ContextScope.highlight }

/-- `src/contexts/ChatContext.tsx` lines 65–70, `setScope`: the functional
state update passed to `setConversation`. -/
def setScope (scope : ContextScope) :
    Option ConversationContext → Option ConversationContext
  | none => none
  | some prev => some { prev with scope := scope }

/-- `src/contexts/ChatContext.tsx` lines 72–86, `addMessage`: appends a new
message with fresh id and timestamp; leaves the store untouched when no
conversation is active. -/
def addMessage (role : Role) (content : String) (freshId : String) (now : Nat) :
    Option ConversationContext → Option ConversationContext
  | none => none
  | some prev =>
    some { prev with
           messages := prev.messages ++
             [{ id := freshId, role := role, content := content, timestamp := now }] }

/-- One `startConversation` call, packaged with its environment inputs. -/
structure StartCall where
  opts : StartConversationOptions
  freshId : String
  now : Nat

/-- The store value after a sequence of `startConversation` calls: each call
runs `setConversation(...)` with a value that ignores the previous state. -/
def runStarts (s : Option ConversationContext) (calls : List StartCall) :
    Option ConversationContext :=
  calls.foldl (fun _ c => some (startConversation c.opts c.freshId c.now)) s

/-- One `addMessage` call, packaged with its environment inputs. -/
structure AppendCall where
  role : Role
  content : String
  freshId : String
  now : Nat

/-- The message such an `addMessage` call constructs. -/
def AppendCall.toMessage (c : AppendCall) : ChatMessage :=
  { id := c.freshId, role := c.role, content := c.content, timestamp := c.now }

/-- The store value after a sequence of `addMessage` calls. -/
def runAppends (s : Option ConversationContext) (calls : List AppendCall) :
    Option ConversationContext :=
  calls.foldl (fun acc c => addMessage c.role c.content c.freshId c.now acc) s

theorem runStarts_append (s : Option ConversationContext)
    (calls : List StartCall) (c : StartCall) :
    runStarts s (calls ++ [c]) = some (startConversation c.opts c.freshId c.now) := by
  simp [runStarts, List.foldl_append]

theorem runAppends_some (conv : ConversationContext) (calls : List AppendCall) :
    runAppends (some conv) calls =
      some { conv with messages := conv.messages ++ calls.map AppendCall.toMessage } := by
  induction calls generalizing conv with
  | nil => simp [runAppends]
  | cons c rest ih =>
    simp only [runAppends, List.foldl_cons] at *
    rw [show addMessage c.role c.content c.freshId c.now (some conv)
          = some { conv with messages := conv.messages ++ [c.toMessage] } from rfl]
    rw [ih]
    simp [AppendCall.toMessage]

/-- Model of JavaScript `s.trim()`: strips leading and trailing whitespace. -/
def jsTrim (s : String) : String :=
  String.mk (((s.data.dropWhile Char.isWhitespace).reverse.dropWhile Char.isWhitespace).reverse)

/-- Model of the JavaScript idiom `o || d` on an optional string: the string
itself when truthy (present and non-empty), otherwise the default `d`. -/
def jsOr (o : Option String) (d : String) : String :=
  match o with
  | some s => if s = "" then d else s
  | none => d

/-- Model of JavaScript `text.split(' ')` on the character list: split at
every single space character; adjacent separators yield empty fragments.
Written by structural recursion so concrete instances evaluate. -/
def jsSplitSpaceAux : List Char → List Char → List String
  | [], acc => [String.mk acc.reverse]
  | c :: rest, acc =>
    if c = ' ' then String.mk acc.reverse :: jsSplitSpaceAux rest []
    else jsSplitSpaceAux rest (c :: acc)

/-- JavaScript `text.split(' ')`. -/
def jsSplitSpace (s : String) : List String :=
  jsSplitSpaceAux s.data []

/-- Outcome of one `fetch` of the generative backend as the client sees it:
`failure` is a rejected promise (network error) or a non-2xx response (the
callers throw on `!response.ok`, landing in the same catch block);
`ok simplified` is a 2xx response whose JSON body carried the given
`simplified` field (`none` when the field is absent). -/
inductive FetchOutcome where
  | failure
  | ok (simplified : Option String)
  deriving DecidableEq

/-- Request modes of the `/api/simplify` endpoint. -/
inductive Mode where
  | explain
  | eli5
  | followup
  deriving DecidableEq

/-! ### `src/components/Simplifier.tsx` -/

/-- One meaning group returned by the dictionary lookup service:
`partOfSpeech` and the first definition of its `definitions` array
(`none` when that array is empty). -/
structure DictMeaning where
  partOfSpeech : String
  firstDefinition : Option String

/-- `src/components/Simplifier.tsx` lines 97–115, `fetchDictionaryDefinition`:
given the lookup response (`none` models a network error or a non-ok
response, both of which land in the catch block and return `null`),
extract up to two `partOfSpeech: definition` pairs joined by `; `; an empty
join degrades to the string `No definition found`. -/
def fetchDictionaryDefinition (response : Option (List DictMeaning)) : Option String :=
  match response with
  | none => none
  | some meanings =>
    let definitions := String.intercalate "; "
      ((meanings.take 2).map fun m =>
        m.partOfSpeech ++ ": " ++ (m.firstDefinition.getD "undefined"))
    some (jsOr (some definitions) "No definition found")

/-- The single-word test of `src/components/Simplifier.tsx` line 121:
`text.split(' ').length === 1`. -/
def isSingleWord (text : String) : Bool :=
  (jsSplitSpace text).length == 1

/-- What the generative-backend leg of `simplifyText` displays:
`Failed to simplify text. Please try again.` on a non-ok response or a
thrown fetch, otherwise `data.simplified || 'Unable to simplify text'`. -/
def simplifyBackendText (outcome : FetchOutcome) : String :=
  match outcome with
  | FetchOutcome.failure => "Failed to simplify text. Please try again."
  | FetchOutcome.ok simplified => jsOr simplified "Unable to simplify text"

/-- Observable outcome of one `simplifyText` run: the displayed text,
whether the dictionary lookup service was attempted, and the mode the
generative backend was called with (`none` when it was never called). -/
structure SimplifyOutcome where
  simplified : String
  dictionaryAttempted : Bool
  backendCalledWith : Option Mode
  deriving DecidableEq

/-- `src/components/Simplifier.tsx` lines 117–162, `simplifyText`:
for mode `explain` on a single-word text the dictionary is consulted first
(`dict` is what `fetchDictionaryDefinition` returned) and a non-null
result is shown directly; otherwise the generative backend is called with
the given mode. -/
def simplifyText (mode : Mode) (text : String) (dict : Option String)
    (backend : FetchOutcome) : SimplifyOutcome :=
  if mode = Mode.explain ∧ isSingleWord text then
    match dict with
    | some d => { simplified := d, dictionaryAttempted := true, backendCalledWith := none }
    | none =>
      { simplified := simplifyBackendText backend
        dictionaryAttempted := true
        backendCalledWith := some mode }
  else
    { simplified := simplifyBackendText backend
      dictionaryAttempted := false
      backendCalledWith := some mode }

/-- `src/components/Simplifier.tsx` lines 164–216, `sendFollowUp`, acting on
the local `messages` state: guarded on non-empty trimmed input and on the
`sendingFollowUp` flag; appends the user question, then appends either the
backend answer (`data.simplified || 'Unable to respond'`) or the fixed
fallback `Failed to get response. Please try again.` when the fetch throws
or returns non-ok. -/
def sendFollowUp (messages : List ChatMessage) (followUpInput : String)
    (sendingFollowUp : Bool) (outcome : FetchOutcome)
    (uid aid : String) (t1 t2 : Nat) : List ChatMessage :=
  if jsTrim followUpInput = "" ∨ sendingFollowUp then messages
  else
    let userMessage : ChatMessage :=
      { id := uid, role := Role.user, content := jsTrim followUpInput, timestamp := t1 }
    let answer : String :=
      match outcome with
      | FetchOutcome.failure => "Failed to get response. Please try again."
      | FetchOutcome.ok simplified => jsOr simplified "Unable to respond"
    messages ++ [userMessage,
      { id := aid, role := Role.assistant, content := answer, timestamp := t2 }]

/-! ### `src/app/api/simplify/route.ts` — scope-context truncation -/

/-- `src/components/ChatPanel.tsx` lines 119–124: the `scopeContext` field
the panel attaches to a follow-up request, derived from the active
conversation (JS truthiness: an absent or empty context yields no field). -/
def deriveScopeContext (conv : ConversationContext) : Option String :=
  if conv.scope = ContextScope.chapter ∧ strTruthy conv.chapterText then
    conv.chapterText
  else if conv.scope = ContextScope.book ∧ strTruthy conv.bookText then
    conv.bookText
  else
    none

/-- The truncated scope-context payload the server embeds in a `followup`
request: `scopeContext.slice(0, 15000)` for chapter scope and
`scopeContext.slice(0, 30000)` for book scope
(`src/app/api/simplify/route.ts` lines 123–141 and 166–169); nothing for
highlight scope or an absent/empty `scopeContext`. -/
def attachedScopeContext (scope : Option ContextScope) (scopeContext : Option String) :
    Option String :=
  if scope = some ContextScope.chapter ∧ strTruthy scopeContext then
    some (jsSlice (scopeContext.getD "") 15000)
  else if scope = some ContextScope.book ∧ strTruthy scopeContext then
    some (jsSlice (scopeContext.getD "") 30000)
  else
    none

/-- The prose that precedes the truncated chapter payload in `contextInfo`
(`src/app/api/simplify/route.ts` line 167). -/
def chapterContextHeader (chapterTitle : Option String) : String :=
  "\n\nYou have access to the full chapter" ++
    (if strTruthy chapterTitle then " (\"" ++ chapterTitle.getD "" ++ "\")" else "") ++
    " for additional context:\n\n"

/-- The prose that precedes the truncated book payload in `contextInfo`
(`src/app/api/simplify/route.ts` line 169). -/
def bookContextHeader : String :=
  "\n\nYou have access to the book's content for additional context:\n\n"

/-- `src/app/api/simplify/route.ts` lines 164–172, `contextInfo`: the extra
context block appended to the system message of a `followup` request with
conversation history. -/
def contextInfo (scope : Option ContextScope) (scopeContext : Option String)
    (chapterTitle : Option String) : String :=
  if scope = some ContextScope.chapter ∧ strTruthy scopeContext then
    chapterContextHeader chapterTitle ++ jsSlice (scopeContext.getD "") 15000
  else if scope = some ContextScope.book ∧ strTruthy scopeContext then
    bookContextHeader ++ jsSlice (scopeContext.getD "") 30000
  else
    ""

/-! ### `src/components/ChatPanel.tsx` — the follow-up send path -/

/-- The visible state of the chat panel that `sendMessage` touches:
the store value (`conversation` through the context), the input field, the
`sending` flag, and — for reasoning about request serialization — the
number of panel-issued follow-up requests currently outstanding. -/
structure PanelState where
  store : Option ConversationContext
  input : String
  sending : Bool
  inFlight : Nat
  deriving DecidableEq

/-- Events of the panel send path: `trySend` is a click on the send button
or Enter in the input (`sendMessage` up to its `await`); `resolve` is the
continuation after the awaited fetch settles; `setInput` is typing. -/
inductive PanelEvent where
  | trySend (uid : String) (t : Nat)
  | resolve (outcome : FetchOutcome) (aid : String) (t : Nat)
  | setInput (s : String)

/-- The assistant text `sendMessage` appends once the fetch settles:
`data.simplified || 'Unable to respond'` on ok, the fixed fallback
`Failed to get response. Please try again.` on a thrown fetch or a non-ok
status (`src/components/ChatPanel.tsx` lines 144–159). -/
def panelResponseText (outcome : FetchOutcome) : String :=
  match outcome with
  | FetchOutcome.failure => "Failed to get response. Please try again."
  | FetchOutcome.ok simplified => jsOr simplified "Unable to respond"

/-- One step of the panel send path, `src/components/ChatPanel.tsx`
lines 100–161. `trySend` is a no-op when the trimmed input is empty, a
request is already in flight (`sending`), or no conversation is active;
otherwise it appends the user turn, clears the input, sets `sending` and
issues the request. `resolve` (a settled fetch) appends the assistant
turn and clears `sending`; with nothing outstanding there is no
continuation to run, so it leaves the state unchanged. -/
def panelStep (s : PanelState) : PanelEvent → PanelState
  | PanelEvent.trySend uid t =>
    if jsTrim s.input = "" ∨ s.sending ∨ s.store = none then s
    else
      { s with
        store := addMessage Role.user (jsTrim s.input) uid t s.store
        input := ""
        sending := true
        inFlight := s.inFlight + 1 }
  | PanelEvent.resolve outcome aid t =>
    if s.inFlight = 0 then s
    else
      { s with
        store := addMessage Role.assistant (panelResponseText outcome) aid t s.store
        sending := false
        inFlight := s.inFlight - 1 }
  | PanelEvent.setInput str => { s with input := str }

/-- The panel state after a sequence of events. -/
def panelRun (s : PanelState) (evs : List PanelEvent) : PanelState :=
  evs.foldl panelStep s

/-- Initial panel state over a given store value: empty input, not sending
(`useState` initialisers, `src/components/ChatPanel.tsx` lines 17–18),
nothing outstanding. -/
def panelInit (store : Option ConversationContext) : PanelState :=
  { store := store, input := "", sending := false, inFlight := 0 }

/-- The serialization invariant of the panel: a request is outstanding
exactly while the `sending` flag is set. -/
def panelInvB (s : PanelState) : Bool :=
  s.inFlight == (if s.sending then 1 else 0)

/-! ### Layout: `ReaderLayout` (`src/unnamed/part_012`) -/

/-- `ReaderLayout` line 13: minimum chat panel width, percent. -/
def MIN_CHAT_WIDTH : ℚ := 25

/-- `ReaderLayout` line 14: maximum chat panel width, percent. -/
def MAX_CHAT_WIDTH : ℚ := 45

/-- `ReaderLayout` line 15: default chat panel width, percent. -/
def DEFAULT_CHAT_WIDTH : ℚ := 40

/-- `ReaderLayout` lines 19–25: the initial `chatWidth`, restored from the
persisted `reader-chat-width` record. `none` models an absent (or empty)
record; `some v` a record that parses to the number `v`. The restored
value is used as parsed, without clamping. -/
def initialChatWidth (saved : Option ℚ) : ℚ :=
  match saved with
  | some v => v
  | none => DEFAULT_CHAT_WIDTH

/-- `ReaderLayout` lines 47–62, `handlePointerMove`: while a drag is active
(and the container ref is live), recompute the chat width from the pointer
position and clamp it to `[MIN_CHAT_WIDTH, MAX_CHAT_WIDTH]`; otherwise
leave the width unchanged. Distances are modelled as rationals. -/
def handlePointerMove (isDragging containerPresent : Bool)
    (containerWidth mouseX : ℚ) (chatWidth : ℚ) : ℚ :=
  if isDragging ∧ containerPresent then
    let newChatWidth := ((containerWidth - mouseX) / containerWidth) * 100
    min MAX_CHAT_WIDTH (max MIN_CHAT_WIDTH newChatWidth)
  else chatWidth

/-! ### Application-level state and the UI-reachable transition system -/

/-- The combined state the claims about `clearConversation` and scope
selection range over: the conversation store (`ChatContext`), the panel
visibility flag `isExpanded` (`ChatContext`), and the layout width state
(`ReaderLayout` state plus its persisted record). -/
structure AppState where
  conversation : Option ConversationContext
  isExpanded : Bool
  chatWidth : ℚ
  savedChatWidth : Option ℚ

/-- `src/contexts/ChatContext.tsx` lines 88–91, `clearConversation`:
`setConversation(null); setIsExpanded(false);` — nothing else changes. -/
def clearConversation (s : AppState) : AppState :=
  { s with conversation := none, isExpanded := false }

/-- `src/components/ChatPanel.tsx` lines 207–208: whether a scope pill is
disabled for the active conversation. -/
def scopeDisabled (conv : ConversationContext) (sc : ContextScope) : Bool :=
  ((sc == ContextScope.chapter) && !(strTruthy conv.chapterText)) ||
  ((sc == ContextScope.book) && !(strTruthy conv.bookText))

/-- UI-level actions that touch the conversation store. `selectScope` is a
click on a ChatPanel scope pill: the panel renders only when expanded with
an active conversation (`ChatPanel` line 163) and the click handler runs
`setScope` only when the pill is not disabled (`ChatPanel` line 212). -/
inductive Action where
  | start (opts : StartConversationOptions) (freshId : String) (now : Nat)
  | append (role : Role) (content : String) (freshId : String) (now : Nat)
  | selectScope (sc : ContextScope)
  | setExpanded (b : Bool)
  | clear

/-- One UI action applied to the application state. -/
def appStep (s : AppState) : Action → AppState
  | Action.start opts freshId now =>
    { s with conversation := some (startConversation opts freshId now) }
  | Action.append role content freshId now =>
    { s with conversation := addMessage role content freshId now s.conversation }
  | Action.selectScope sc =>
    match s.conversation with
    | none => s
    | some conv =>
      if ¬ s.isExpanded then s
      else if scopeDisabled conv sc then s
      else { s with conversation := setScope sc s.conversation }
  | Action.setExpanded b => { s with isExpanded := b }
  | Action.clear => clearConversation s

/-- The application state after a sequence of UI actions. -/
def appRun (s : AppState) (acts : List Action) : AppState :=
  acts.foldl appStep s

/-- Initial application state of a reading session: no conversation, panel
collapsed. -/
def appInit (chatWidth : ℚ) (savedChatWidth : Option ℚ) : AppState :=
  { conversation := none, isExpanded := false,
    chatWidth := chatWidth, savedChatWidth := savedChatWidth }

/-- The scope-availability invariant of claim C5, as a decidable check:
scope `chapter` only with a truthy `chapterText`, scope `book` only with a
truthy `bookText`. -/
def scopeOkB (conv : ConversationContext) : Bool :=
  ((conv.scope != ContextScope.chapter) || strTruthy conv.chapterText) &&
  ((conv.scope != ContextScope.book) || strTruthy conv.bookText)

/-- The invariant lifted to the application state (vacuous with no active
conversation). -/
def appInvB (s : AppState) : Bool :=
  match s.conversation with
  | none => true
  | some conv => scopeOkB conv

/-! ### Spec-side definitions, for refinement comparison -/

/-- The turns claim C1 says `startConversation` must produce, stated from
the claims words: the imported list verbatim when non-empty, otherwise a
single assistant turn whose content is the first response. -/
def specStartTurns (opts : StartConversationOptions) (freshId : String)
    (now : Nat) : List ChatMessage :=
  match opts.existingMessages with
  | some ms =>
    if ms ≠ [] then ms
    else [{ id := freshId, role := Role.assistant,
            content := opts.initialResponse, timestamp := now }]
  | none =>
    [{ id := freshId, role := Role.assistant,
       content := opts.initialResponse, timestamp := now }]

/-- Formalisation of claim C4s phrase "single-token text (no internal
whitespace)", stated from the claims words: after stripping leading and
trailing whitespace, the text contains no whitespace character. To be
compared with the source condition `isSingleWord`. -/
def claimSingleToken (s : String) : Bool :=
  ((s.data.dropWhile Char.isWhitespace).reverse.dropWhile Char.isWhitespace).all
    (fun c => !c.isWhitespace)

/-! ### Concrete fixtures used by witnesses and counterexamples -/

/-- A conversation with neither chapter nor book context. -/
def convPlain : ConversationContext :=
  { originalText := "orig", chapterText := none, bookText := none,
    chapterTitle := none,
    messages := [{ id := "m1", role := Role.assistant,
                   content := "first", timestamp := 10 }],
    scope := ContextScope.highlight }

/-- A conversation in chapter scope with a chapter context. -/
def convChapter : ConversationContext :=
  { convPlain with chapterText := some "CHAPTER BODY", scope := ContextScope.chapter }

/-- A conversation in book scope with a book context. -/
def convBook : ConversationContext :=
  { convPlain with bookText := some "BOOK BODY", scope := ContextScope.book }

/-! ## Helper lemmas -/

theorem startConversation_scope (opts : StartConversationOptions)
    (freshId : String) (now : Nat) :
    (startConversation opts freshId now).scope = ContextScope.highlight := by
  unfold startConversation
  cases opts.existingMessages with
  | none => rfl
  | some ms =>
    by_cases h : ms.length > 0 <;> simp [h]

theorem startConversation_messages (opts : StartConversationOptions)
    (freshId : String) (now : Nat) :
    (startConversation opts freshId now).messages = specStartTurns opts freshId now := by
  unfold startConversation specStartTurns
  cases opts.existingMessages with
  | none => rfl
  | some ms =>
    by_cases h : ms = []
    · subst h; simp
    · have hlen : ms.length > 0 := List.length_pos.mpr h
      simp [h, hlen]

/-! ## Claim theorems -/

/-- C1: `startConversation` seeds the conversation verbatim with the
imported turns when a non-empty list is supplied, otherwise with a single
assistant turn carrying the first response; the scope is always reset to
highlight, and after any sequence of `startConversation` calls the store
holds exactly the conversation of the most recent call, whatever the prior
state was. -/
theorem c1_startConversation_spec (opts : StartConversationOptions)
    (freshId : String) (now : Nat) (s0 : Option ConversationContext)
    (calls : List StartCall) (c : StartCall) :
    (startConversation opts freshId now).scope = ContextScope.highlight ∧
    (startConversation opts freshId now).messages = specStartTurns opts freshId now ∧
    runStarts s0 (calls ++ [c]) = some (startConversation c.opts c.freshId c.now) :=
  ⟨startConversation_scope opts freshId now,
   startConversation_messages opts freshId now,
   runStarts_append s0 calls c⟩

/-- C6: `clearConversation` drops the conversation and collapses the panel,
leaving the width state — both the live value and the persisted record —
untouched, whatever the prior state was. -/
theorem c6_clearConversation_spec (s : AppState) :
    (clearConversation s).conversation = none ∧
    (clearConversation s).isExpanded = false ∧
    (clearConversation s).chatWidth = s.chatWidth ∧
    (clearConversation s).savedChatWidth = s.savedChatWidth :=
  ⟨rfl, rfl, rfl, rfl⟩

/-- C8: with no active conversation, `addMessage` is a silent no-op — the
store stays without a conversation after one call and after any sequence of
calls. -/
theorem c8_addMessage_noop (role : Role) (content freshId : String) (now : Nat)
    (calls : List AppendCall) :
    addMessage role content freshId now none = none ∧
    runAppends none calls = none := by
  refine ⟨rfl, ?_⟩
  induction calls with
  | nil => rfl
  | cons c rest ih =>
    show runAppends (addMessage c.role c.content c.freshId c.now none) rest = none
    exact ih

/-- C7: appending N turns to an active conversation yields the old turns
followed by the N new turns in call order (nothing reordered, dropped or
deduplicated; length grows by exactly N), and — provided the clock values
supplied by the environment are non-decreasing across the existing and new
turns, as `Date.now()` is — the timestamps of the resulting turns are
non-decreasing; `setScope` leaves the turns untouched. -/
theorem c7_appendTurn_order (conv : ConversationContext) (calls : List AppendCall)
    (sc : ContextScope)
    (hmono : (conv.messages.map ChatMessage.timestamp
        ++ calls.map AppendCall.now).Chain' (· ≤ ·)) :
    runAppends (some conv) calls =
      some { conv with messages := conv.messages ++ calls.map AppendCall.toMessage } ∧
    (conv.messages ++ calls.map AppendCall.toMessage).length
      = conv.messages.length + calls.length ∧
    ((conv.messages ++ calls.map AppendCall.toMessage).map ChatMessage.timestamp).Chain'
      (· ≤ ·) ∧
    (setScope sc (some conv)).map ConversationContext.messages = some conv.messages := by
  refine ⟨runAppends_some conv calls, by simp, ?_, rfl⟩
  have hmap : (calls.map AppendCall.toMessage).map ChatMessage.timestamp
      = calls.map AppendCall.now := by
    rw [List.map_map]; rfl
  rw [List.map_append, hmap]
  exact hmono

/-- Closed instance of C7: two turns appended to `convPlain` at times 20
and 30. -/
theorem c7_appendTurn_order_witness :
    runAppends (some convPlain)
        [{ role := Role.user, content := "q", freshId := "u1", now := 20 },
         { role := Role.assistant, content := "a", freshId := "a1", now := 30 }] =
      some { convPlain with messages := convPlain.messages ++
        ([{ role := Role.user, content := "q", freshId := "u1", now := 20 },
          { role := Role.assistant, content := "a", freshId := "a1", now := 30 }].map
            AppendCall.toMessage) } ∧
    (convPlain.messages ++
        ([{ role := Role.user, content := "q", freshId := "u1", now := 20 },
          { role := Role.assistant, content := "a", freshId := "a1", now := 30 }].map
            AppendCall.toMessage)).length = convPlain.messages.length + 2 ∧
    ((convPlain.messages ++
        ([{ role := Role.user, content := "q", freshId := "u1", now := 20 },
          { role := Role.assistant, content := "a", freshId := "a1", now := 30 }].map
            AppendCall.toMessage)).map ChatMessage.timestamp).Chain' (· ≤ ·) ∧
    (setScope ContextScope.chapter (some convPlain)).map ConversationContext.messages
      = some convPlain.messages :=
  c7_appendTurn_order convPlain
    [{ role := Role.user, content := "q", freshId := "u1", now := 20 },
     { role := Role.assistant, content := "a", freshId := "a1", now := 30 }]
    ContextScope.chapter (by simp [convPlain, List.chain'_cons])

/-- C2: for a follow-up request from an active conversation, chapter scope
with a present (non-empty) chapter context attaches exactly that context
cut hard at 15000 characters — never more; book scope with a present book
context attaches it cut at 30000 characters — never more; highlight scope
attaches no extra context. Stated for the `contextInfo` block the server
builds for a `followup` request with history, over the `scopeContext`
field the panel derives from the conversation. -/
theorem c2_scope_context_truncation (conv : ConversationContext)
    (title : Option String) :
    (∀ s : String, conv.scope = ContextScope.chapter → conv.chapterText = some s →
      s ≠ "" →
      deriveScopeContext conv = some s ∧
      attachedScopeContext (some conv.scope) (deriveScopeContext conv)
        = some (jsSlice s 15000) ∧
      contextInfo (some conv.scope) (deriveScopeContext conv) title
        = chapterContextHeader title ++ jsSlice s 15000 ∧
      (jsSlice s 15000).length ≤ 15000) ∧
    (∀ s : String, conv.scope = ContextScope.book → conv.bookText = some s →
      s ≠ "" →
      deriveScopeContext conv = some s ∧
      attachedScopeContext (some conv.scope) (deriveScopeContext conv)
        = some (jsSlice s 30000) ∧
      contextInfo (some conv.scope) (deriveScopeContext conv) title
        = bookContextHeader ++ jsSlice s 30000 ∧
      (jsSlice s 30000).length ≤ 30000) ∧
    (conv.scope = ContextScope.highlight →
      deriveScopeContext conv = none ∧
      attachedScopeContext (some conv.scope) (deriveScopeContext conv) = none ∧
      contextInfo (some conv.scope) (deriveScopeContext conv) title = "") := by
  refine ⟨?_, ?_, ?_⟩
  · intro s hscope htext hne
    have hd : deriveScopeContext conv = some s := by
      simp [deriveScopeContext, hscope, htext, strTruthy, hne]
    refine ⟨hd, ?_, ?_, jsSlice_length_le s 15000⟩
    · simp [attachedScopeContext, hscope, hd, strTruthy, hne]
    · simp [contextInfo, hscope, hd, strTruthy, hne]
  · intro s hscope htext hne
    have hd : deriveScopeContext conv = some s := by
      simp [deriveScopeContext, hscope, htext, strTruthy, hne]
    refine ⟨hd, ?_, ?_, jsSlice_length_le s 30000⟩
    · simp [attachedScopeContext, hscope, hd, strTruthy, hne]
    · simp [contextInfo, hscope, hd, strTruthy, hne]
  · intro hscope
    have hd : deriveScopeContext conv = none := by
      simp [deriveScopeContext, hscope]
    exact ⟨hd, by simp [attachedScopeContext, hscope, hd],
      by simp [contextInfo, hscope, hd]⟩

/-- Closed instances of C2 at the three scopes. -/
theorem c2_scope_context_truncation_witness :
    (deriveScopeContext convChapter = some "CHAPTER BODY" ∧
      attachedScopeContext (some convChapter.scope) (deriveScopeContext convChapter)
        = some (jsSlice "CHAPTER BODY" 15000) ∧
      contextInfo (some convChapter.scope) (deriveScopeContext convChapter) none
        = chapterContextHeader none ++ jsSlice "CHAPTER BODY" 15000 ∧
      (jsSlice "CHAPTER BODY" 15000).length ≤ 15000) ∧
    (deriveScopeContext convBook = some "BOOK BODY" ∧
      attachedScopeContext (some convBook.scope) (deriveScopeContext convBook)
        = some (jsSlice "BOOK BODY" 30000) ∧
      contextInfo (some convBook.scope) (deriveScopeContext convBook) none
        = bookContextHeader ++ jsSlice "BOOK BODY" 30000 ∧
      (jsSlice "BOOK BODY" 30000).length ≤ 30000) ∧
    (deriveScopeContext convPlain = none ∧
      attachedScopeContext (some convPlain.scope) (deriveScopeContext convPlain) = none ∧
      contextInfo (some convPlain.scope) (deriveScopeContext convPlain) none = "") :=
  ⟨(c2_scope_context_truncation convChapter none).1 "CHAPTER BODY" rfl rfl
      (by decide),
   (c2_scope_context_truncation convBook none).2.1 "BOOK BODY" rfl rfl
      (by decide),
   (c2_scope_context_truncation convPlain none).2.2 rfl⟩

theorem appInvB_step (s : AppState) (a : Action) (h : appInvB s = true) :
    appInvB (appStep s a) = true := by
  cases a with
  | start opts freshId now =>
    simp only [appStep, appInvB]
    simp [scopeOkB, startConversation_scope]
  | append role content freshId now =>
    cases hc : s.conversation with
    | none => simp [appStep, appInvB, addMessage, hc]
    | some conv =>
      simp only [appStep, appInvB, addMessage, hc]
      simpa [appInvB, hc, scopeOkB] using h
  | selectScope sc =>
    cases hc : s.conversation with
    | none => simpa [appStep, hc] using h
    | some conv =>
      simp only [appStep, hc]
      by_cases he : s.isExpanded
      · by_cases hd : scopeDisabled conv sc
        · simpa [he, hd, appInvB, hc] using h
        · simp only [he, hd]
          simp only [not_true_eq_false, Bool.false_eq_true, if_false, if_true,
            Bool.not_eq_true] at *
          simp only [appInvB, setScope, hc]
          cases sc with
          | highlight => simp [scopeOkB]
          | chapter =>
            simp [scopeDisabled] at hd
            simp [scopeOkB, hd]
          | book =>
            simp [scopeDisabled] at hd
            simp [scopeOkB, hd]
      · simpa [he, appInvB, hc] using h
  | setExpanded b => simpa [appStep, appInvB] using h
  | clear => simp [appStep, clearConversation, appInvB]

theorem appRun_inv (acts : List Action) (s : AppState) (h : appInvB s = true) :
    appInvB (appRun s acts) = true := by
  induction acts generalizing s with
  | nil => exact h
  | cons a rest ih =>
    show appInvB (appRun (appStep s a) rest) = true
    exact ih (appStep s a) (appInvB_step s a h)

/-- C5 (amended): over every sequence of UI actions from a fresh session,
the reachable states keep scope `chapter` only when `chapterText` is
present and `book` only when `bookText` is present — the guard lives in
the ChatPanel pill handler, which ignores clicks on a disabled scope. The
store-level `setScope` itself does not validate availability (see the
counterexample). -/
theorem c5_scope_availability (chatWidth : ℚ) (savedChatWidth : Option ℚ)
    (acts : List Action) :
    appInvB (appRun (appInit chatWidth savedChatWidth) acts) = true :=
  appRun_inv acts (appInit chatWidth savedChatWidth) rfl

/-- C5 counterexample: with an active conversation that has no chapter
context, the store-level `setScope 'chapter'` is not a no-op — it changes
the scope to `chapter` anyway (the claim says such a call leaves the scope
unchanged). -/
theorem c5_setScope_not_noop :
    convPlain.chapterText = none ∧
    setScope ContextScope.chapter (some convPlain)
      = some { convPlain with scope := ContextScope.chapter } ∧
    setScope ContextScope.chapter (some convPlain) ≠ some convPlain := by
  refine ⟨rfl, rfl, ?_⟩
  decide

/-- C9 counterexample: the width restored from the persisted record at
session start is used without clamping, so a stored value of 60 puts the
session outside `[MIN_CHAT_WIDTH, MAX_CHAT_WIDTH]` (the claim says the
value in effect at any time, including the restored initial value, lies in
the bounded range). -/
theorem c9_initial_width_unclamped :
    initialChatWidth (some 60) = 60 ∧
    ¬ initialChatWidth (some 60) ≤ MAX_CHAT_WIDTH := by
  refine ⟨rfl, ?_⟩
  rw [show initialChatWidth (some 60) = 60 from rfl]
  norm_num [MAX_CHAT_WIDTH]

/-- C9 (amended): every width produced by a drag pointer-move is clamped
into `[MIN_CHAT_WIDTH, MAX_CHAT_WIDTH]`, whatever the pointer position —
even outside the container bounds — and a pointer-move outside a drag (or
without a live container) leaves the width unchanged. The initial width is
the default (which lies in the range) when no record is persisted, but a
persisted value is restored without clamping, so the initial width lies in
the range only when the persisted value does. -/
theorem c9_drag_width_clamped (containerWidth mouseX w : ℚ) (saved : Option ℚ)
    (hsaved : ∀ v, saved = some v → MIN_CHAT_WIDTH ≤ v ∧ v ≤ MAX_CHAT_WIDTH) :
    (MIN_CHAT_WIDTH ≤ handlePointerMove true true containerWidth mouseX w ∧
      handlePointerMove true true containerWidth mouseX w ≤ MAX_CHAT_WIDTH) ∧
    handlePointerMove false true containerWidth mouseX w = w ∧
    handlePointerMove true false containerWidth mouseX w = w ∧
    initialChatWidth none = DEFAULT_CHAT_WIDTH ∧
    (MIN_CHAT_WIDTH ≤ DEFAULT_CHAT_WIDTH ∧ DEFAULT_CHAT_WIDTH ≤ MAX_CHAT_WIDTH) ∧
    (MIN_CHAT_WIDTH ≤ initialChatWidth saved ∧
      initialChatWidth saved ≤ MAX_CHAT_WIDTH) := by
  have hmm : (MIN_CHAT_WIDTH : ℚ) ≤ MAX_CHAT_WIDTH := by
    norm_num [MIN_CHAT_WIDTH, MAX_CHAT_WIDTH]
  refine ⟨?_, by simp [handlePointerMove], by simp [handlePointerMove], rfl, ?_, ?_⟩
  · constructor
    · simp only [handlePointerMove, true_and, if_true]
      exact le_min hmm (le_max_left _ _)
    · simp only [handlePointerMove, true_and, if_true]
      exact min_le_left _ _
  · norm_num [MIN_CHAT_WIDTH, DEFAULT_CHAT_WIDTH, MAX_CHAT_WIDTH]
  · cases saved with
    | none =>
      norm_num [initialChatWidth, MIN_CHAT_WIDTH, DEFAULT_CHAT_WIDTH, MAX_CHAT_WIDTH]
    | some v => exact hsaved v rfl

/-- Closed instance of C9: a drag that requests 60% clamps to 45%, and a
persisted in-range value is restored in range. -/
theorem c9_drag_width_clamped_witness :
    (MIN_CHAT_WIDTH ≤ handlePointerMove true true 100 40 40 ∧
      handlePointerMove true true 100 40 40 ≤ MAX_CHAT_WIDTH) ∧
    handlePointerMove false true 100 40 40 = 40 ∧
    handlePointerMove true false 100 40 40 = 40 ∧
    initialChatWidth none = DEFAULT_CHAT_WIDTH ∧
    (MIN_CHAT_WIDTH ≤ DEFAULT_CHAT_WIDTH ∧ DEFAULT_CHAT_WIDTH ≤ MAX_CHAT_WIDTH) ∧
    (MIN_CHAT_WIDTH ≤ initialChatWidth (some 30) ∧
      initialChatWidth (some 30) ≤ MAX_CHAT_WIDTH) :=
  c9_drag_width_clamped 100 40 40 (some 30)
    (by
      intro v hv
      injection hv with hv'
      subst hv'
      norm_num [MIN_CHAT_WIDTH, MAX_CHAT_WIDTH])

theorem panelInvB_step (s : PanelState) (e : PanelEvent)
    (h : panelInvB s = true) : panelInvB (panelStep s e) = true := by
  cases e with
  | trySend uid t =>
    by_cases hc : jsTrim s.input = "" ∨ s.sending ∨ s.store = none
    · simpa [panelStep, hc] using h
    · push_neg at hc
      obtain ⟨h1, h2, h3⟩ := hc
      have hs : s.sending = false := by simpa using h2
      have h0 : s.inFlight = 0 := by simpa [panelInvB, hs] using h
      simp [panelStep, h1, h3, hs, panelInvB, h0]
  | resolve outcome aid t =>
    by_cases hf : s.inFlight = 0
    · simpa [panelStep, hf] using h
    · have hs : s.sending = true := by
        rcases Bool.eq_false_or_eq_true s.sending with hb | hb
        · exact hb
        · simp [panelInvB, hb] at h
          exact absurd h hf
      simp [panelInvB, hs] at h
      simp [panelStep, hf, panelInvB, h]
  | setInput str => simpa [panelStep, panelInvB] using h

theorem panelRun_inv (evs : List PanelEvent) (s : PanelState)
    (h : panelInvB s = true) : panelInvB (panelRun s evs) = true := by
  induction evs generalizing s with
  | nil => exact h
  | cons e rest ih =>
    show panelInvB (panelRun (panelStep s e) rest) = true
    exact ih (panelStep s e) (panelInvB_step s e h)

/-- C10: the chat panel serializes follow-up requests. Over every event
sequence from the initial panel state, a request is outstanding exactly
while the `sending` flag is set — so at most one panel-issued request is
ever in flight, and responses cannot resolve out of request order. A
`trySend` while sending, with no active conversation, or with empty input
leaves the state entirely unchanged. -/
theorem c10_sendMessage_serialized (store st : Option ConversationContext)
    (evs : List PanelEvent) (i : String) (f : Nat) (b : Bool)
    (uid : String) (t : Nat) :
    panelInvB (panelRun (panelInit store) evs) = true ∧
    (panelRun (panelInit store) evs).inFlight ≤ 1 ∧
    panelStep { store := st, input := i, sending := true, inFlight := f }
        (PanelEvent.trySend uid t)
      = { store := st, input := i, sending := true, inFlight := f } ∧
    panelStep { store := none, input := i, sending := b, inFlight := f }
        (PanelEvent.trySend uid t)
      = { store := none, input := i, sending := b, inFlight := f } ∧
    panelStep { store := st, input := "", sending := b, inFlight := f }
        (PanelEvent.trySend uid t)
      = { store := st, input := "", sending := b, inFlight := f } := by
  have hinv : panelInvB (panelRun (panelInit store) evs) = true :=
    panelRun_inv evs (panelInit store) rfl
  refine ⟨hinv, ?_, ?_, ?_, ?_⟩
  · simp [panelInvB] at hinv
    rcases Bool.eq_false_or_eq_true (panelRun (panelInit store) evs).sending with hb | hb
      <;> simp [hb] at hinv <;> omega
  · simp [panelStep]
  · simp [panelStep]
  · have : jsTrim "" = "" := rfl
    simp [panelStep, this]

/-- C3 counterexample: a failing follow-up from the panel appends the
fallback text `Failed to get response. Please try again.`, which is
neither of the two strings the claim names (`Failed to simplify text.
Please try again.` is the explain/eli5 fallback, `Unable to respond` the
missing-field placeholder of a successful response). -/
theorem c3_fallback_string_differs :
    (panelRun { store := some convPlain, input := "why?", sending := false, inFlight := 0 }
        [PanelEvent.trySend "u1" 20, PanelEvent.resolve FetchOutcome.failure "a1" 30]).store
      = some { convPlain with messages := convPlain.messages ++
          [{ id := "u1", role := Role.user, content := "why?", timestamp := 20 },
           { id := "a1", role := Role.assistant,
             content := "Failed to get response. Please try again.", timestamp := 30 }] } ∧
    panelResponseText FetchOutcome.failure
      ≠ "Failed to simplify text. Please try again." ∧
    panelResponseText FetchOutcome.failure ≠ "Unable to respond" := by
  refine ⟨by decide, by decide, by decide⟩

/-- C3 (amended): when the backend call of a follow-up fails (network error
or non-2xx status), the caller does not crash and does not roll back: the
user question turn stays, exactly one assistant turn is appended whose
content is the fixed fallback string `Failed to get response. Please try
again.`, and the turn count grows by exactly 2. This holds for the panel
(`sendMessage`) and for the popup (`sendFollowUp`). -/
theorem c3_followup_failure_fallback (conv : ConversationContext)
    (input uid aid : String) (t1 t2 : Nat) (msgs : List ChatMessage)
    (h : jsTrim input ≠ "") :
    (panelRun { store := some conv, input := input, sending := false, inFlight := 0 }
        [PanelEvent.trySend uid t1, PanelEvent.resolve FetchOutcome.failure aid t2]).store
      = some { conv with messages := conv.messages ++
          [{ id := uid, role := Role.user, content := jsTrim input, timestamp := t1 },
           { id := aid, role := Role.assistant,
             content := "Failed to get response. Please try again.", timestamp := t2 }] } ∧
    ((panelRun { store := some conv, input := input, sending := false, inFlight := 0 }
        [PanelEvent.trySend uid t1, PanelEvent.resolve FetchOutcome.failure aid t2]).store.map
      fun c => c.messages.length) = some (conv.messages.length + 2) ∧
    sendFollowUp msgs input false FetchOutcome.failure uid aid t1 t2
      = msgs ++
          [{ id := uid, role := Role.user, content := jsTrim input, timestamp := t1 },
           { id := aid, role := Role.assistant,
             content := "Failed to get response. Please try again.", timestamp := t2 }] ∧
    (sendFollowUp msgs input false FetchOutcome.failure uid aid t1 t2).length
      = msgs.length + 2 := by
  have hstep : panelRun { store := some conv, input := input, sending := false, inFlight := 0 }
      [PanelEvent.trySend uid t1, PanelEvent.resolve FetchOutcome.failure aid t2]
      = { store := some { conv with messages := conv.messages ++
            [{ id := uid, role := Role.user, content := jsTrim input, timestamp := t1 },
             { id := aid, role := Role.assistant,
               content := "Failed to get response. Please try again.", timestamp := t2 }] },
          input := "", sending := false, inFlight := 0 } := by
    simp only [panelRun, List.foldl_cons, List.foldl_nil]
    simp [panelStep, h, addMessage, panelResponseText]
  have hsend : sendFollowUp msgs input false FetchOutcome.failure uid aid t1 t2
      = msgs ++
          [{ id := uid, role := Role.user, content := jsTrim input, timestamp := t1 },
           { id := aid, role := Role.assistant,
             content := "Failed to get response. Please try again.", timestamp := t2 }] := by
    simp [sendFollowUp, h]
  refine ⟨by rw [hstep], by rw [hstep]; simp, hsend, by rw [hsend]; simp⟩

/-- Closed instance of C3 (amended) at a concrete failing follow-up. -/
theorem c3_followup_failure_fallback_witness :
    (panelRun { store := some convPlain, input := "q", sending := false, inFlight := 0 }
        [PanelEvent.trySend "u1" 20, PanelEvent.resolve FetchOutcome.failure "a1" 30]).store
      = some { convPlain with messages := convPlain.messages ++
          [{ id := "u1", role := Role.user, content := jsTrim "q", timestamp := 20 },
           { id := "a1", role := Role.assistant,
             content := "Failed to get response. Please try again.", timestamp := 30 }] } ∧
    ((panelRun { store := some convPlain, input := "q", sending := false, inFlight := 0 }
        [PanelEvent.trySend "u1" 20, PanelEvent.resolve FetchOutcome.failure "a1" 30]).store.map
      fun c => c.messages.length) = some (convPlain.messages.length + 2) ∧
    sendFollowUp [] "q" false FetchOutcome.failure "u1" "a1" 20 30
      = [] ++
          [{ id := "u1", role := Role.user, content := jsTrim "q", timestamp := 20 },
           { id := "a1", role := Role.assistant,
             content := "Failed to get response. Please try again.", timestamp := 30 }] ∧
    (sendFollowUp [] "q" false FetchOutcome.failure "u1" "a1" 20 30).length
      = List.length ([] : List ChatMessage) + 2 :=
  c3_followup_failure_fallback convPlain "q" "u1" "a1" 20 30 [] (by decide)

/-- C4 counterexample: the code tests `text.split(' ').length === 1`, which
disagrees with the claims notion of single-token ("no internal
whitespace") in both directions. For `"hi "` (a trailing space, no
internal whitespace — single-token per the claim) the dictionary is never
attempted and the backend is called; for `"a\tb"` (internal tab — multi-
word per the claim) the dictionary is attempted and a successful lookup
suppresses the backend call. -/
theorem c4_single_word_test_differs :
    (claimSingleToken "hi " = true ∧
      isSingleWord "hi " = false ∧
      simplifyText Mode.explain "hi " (some "greeting") FetchOutcome.failure
        = { simplified := simplifyBackendText FetchOutcome.failure,
            dictionaryAttempted := false,
            backendCalledWith := some Mode.explain }) ∧
    (claimSingleToken "a\tb" = false ∧
      isSingleWord "a\tb" = true ∧
      simplifyText Mode.explain "a\tb" (some "a def") FetchOutcome.failure
        = { simplified := "a def", dictionaryAttempted := true,
            backendCalledWith := none }) := by
  refine ⟨⟨by decide, by decide, by decide⟩, ⟨by decide, by decide, by decide⟩⟩

/-- C4 (amended): the single-token test is `text.split(' ').length === 1`,
i.e. the text contains no space character (other whitespace does not
count, and a leading or trailing space makes the text multi-word). For
such a text in explain mode the dictionary lookup is attempted first and a
non-null result is shown directly, without calling the generative backend;
otherwise — multi-word text, or a lookup that failed or missed (returned
null) — the generative backend is called with the explain instruction. -/
theorem c4_dictionary_first (text d : String) (backend : FetchOutcome) :
    (isSingleWord text = true →
      simplifyText Mode.explain text (some d) backend
        = { simplified := d, dictionaryAttempted := true, backendCalledWith := none }) ∧
    (isSingleWord text = true →
      simplifyText Mode.explain text none backend
        = { simplified := simplifyBackendText backend, dictionaryAttempted := true,
            backendCalledWith := some Mode.explain }) ∧
    (isSingleWord text = false → ∀ dict : Option String,
      simplifyText Mode.explain text dict backend
        = { simplified := simplifyBackendText backend, dictionaryAttempted := false,
            backendCalledWith := some Mode.explain }) := by
  refine ⟨fun h1 => ?_, fun h1 => ?_, fun h0 dict => ?_⟩
  · simp [simplifyText, h1]
  · simp [simplifyText, h1]
  · cases dict <;> simp [simplifyText, h0]

/-- Closed instances of C4 (amended): a one-word text takes the dictionary
shortcut; a two-word text goes to the backend. -/
theorem c4_dictionary_first_witness :
    simplifyText Mode.explain "perspicacious" (some "having keen insight")
        FetchOutcome.failure
      = { simplified := "having keen insight", dictionaryAttempted := true,
          backendCalledWith := none } ∧
    simplifyText Mode.explain "two words" (some "unused") FetchOutcome.failure
      = { simplified := simplifyBackendText FetchOutcome.failure,
          dictionaryAttempted := false,
          backendCalledWith := some Mode.explain } :=
  ⟨(c4_dictionary_first "perspicacious" "having keen insight"
      FetchOutcome.failure).1 (by decide),
   (c4_dictionary_first "two words" "unused" FetchOutcome.failure).2.2
      (by decide) (some "unused")⟩

end Reader
